import Mathlib

/-!
Verification of the domain-calculation layer of a community-savings
(stokvel) web application: loan quoting and payment application, stokvel
lifecycle dates and contributions, funeral-cover premiums and waiting
periods, store-discount tiering, and order totals.

Modelling conventions:
* currency amounts and other JS numbers are embedded as rationals;
* instants compared by subtraction (Date.getTime arithmetic) are embedded
  as integer millisecond timestamps;
* calendar dates built with new Date(year, month, day) are embedded as a
  record of year, zero-based month and day, with the JS normalisation of a
  month index of 12 or more rolling into the year (the carry of an
  out-of-range day of month into the next month is below the granularity
  used by the claims and is not modelled);
* entity classes become structures, methods become functions taking the
  entity (and, where the source reads the clock, an explicit now/today).
-/

namespace Vema

/-- Milliseconds in one day, as in the source constant 1000*60*60*24. -/
def msPerDay : ℤ := 1000 * 60 * 60 * 24

/-- Ceiling division on naturals, the image of Math.ceil(a / b) for
nonnegative integer millisecond counts. -/
def ceilDiv (a b : ℕ) : ℕ := (a + b - 1) / b

/-- Semantics of the JS expression x || d for a numeric table lookup x:
an absent key (undefined) and the number 0 are both falsy, so both fall
through to the default d. -/
def jsOrNat : Option ℕ → ℕ → ℕ
  | some v, d => if v = 0 then d else v
  | none,   d => d

/-! ## Funeral cover (Funeral.model.js) -/

/-- Table FuneralCoverPlan.WAITING_PERIODS: months by cause of death.
The source object literally stores NATURAL_DEATH: 6, ACCIDENTAL_DEATH: 0
(commented as immediate) and SUICIDE: 24. -/
def WAITING_PERIODS : String → Option ℕ
  | "NATURAL_DEATH"    => some 6
  | "ACCIDENTAL_DEATH" => some 0
  | "SUICIDE"          => some 24
  | _                  => none

/-- Waiting-period table as the specification states it: naturalDeath 6,
accidentalDeath 0 (immediately eligible), suicide 24, unrecognized cause
defaults to 6. Written from the words of the spec for comparison with the
source lookup WAITING_PERIODS combined with jsOrNat. -/
def specWaitingPeriod : String → ℕ
  | "NATURAL_DEATH"    => 6
  | "ACCIDENTAL_DEATH" => 0
  | "SUICIDE"          => 24
  | _                  => 6

/-- Funeral cover membership; startDate is a millisecond timestamp. -/
structure FuneralCoverMembership where
  userId : String
  planId : String
  active : Bool
  startDate : ℤ
  paymentMethod : String
  additionalBenefits : List String
  monthlyPremium : ℚ
deriving DecidableEq

/-- Method getMonthsSinceStart: diffTime = Math.abs(now - start) in
milliseconds, diffMonths = Math.ceil(diffTime / (1000*60*60*24*30)). -/
def FuneralCoverMembership.getMonthsSinceStart
    (m : FuneralCoverMembership) (now : ℤ) : ℕ :=
  let diffTime : ℕ := (now - m.startDate).natAbs
  ceilDiv diffTime (msPerDay.toNat * 30)

/-- Method hasWaitingPeriodPassed: looks up
FuneralCoverPlan.WAITING_PERIODS[deathType] || 6 and compares with
getMonthsSinceStart. -/
def FuneralCoverMembership.hasWaitingPeriodPassed
    (m : FuneralCoverMembership) (deathType : String) (now : ℤ) : Bool :=
  let monthsSinceStart := m.getMonthsSinceStart now
  let waitingPeriod := jsOrNat (WAITING_PERIODS deathType) 6
  decide (waitingPeriod ≤ monthsSinceStart)

/-- Concrete membership used to exhibit the accidental-death divergence:
cover started at epoch 0. -/
def accMembership : FuneralCoverMembership :=
  { userId := "u1", planId := "basic", active := true, startDate := 0,
    paymentMethod := "card", additionalBenefits := [], monthlyPremium := 99 }

/-- C1: the waiting-period table declares ACCIDENTAL_DEATH: 0 (immediate
eligibility), but the lookup WAITING_PERIODS[deathType] || 6 treats the
stored 0 as falsy and substitutes 6, so a 30-day-old membership whose
elapsed-month count (1) is at least the declared waiting period (0) is
nevertheless reported ineligible for an accidental-death claim. -/
theorem accidental_death_waiting_period_divergence :
    specWaitingPeriod "ACCIDENTAL_DEATH" ≤
      accMembership.getMonthsSinceStart (30 * msPerDay) ∧
    accMembership.hasWaitingPeriodPassed "ACCIDENTAL_DEATH" (30 * msPerDay)
      = false := by
  decide

/-- C10: getMonthsSinceStart takes the absolute value of now minus
startDate, so a startDate in the future still yields a positive
elapsed-month figure that grows with the distance into the future, and a
membership whose cover starts more than 180 days after now already passes
the 6-month natural-death waiting period. -/
theorem hasWaitingPeriodPassed_future_start
    (m m' : FuneralCoverMembership) (now : ℤ)
    (hfut : now + 180 * msPerDay < m.startDate)
    (hord : m.startDate ≤ m'.startDate) :
    0 < m.getMonthsSinceStart now ∧
    m.getMonthsSinceStart now ≤ m'.getMonthsSinceStart now ∧
    m.hasWaitingPeriodPassed "NATURAL_DEATH" now = true := by
  have hms : (180 : ℤ) * msPerDay = 15552000000 := by norm_num [msPerDay]
  rw [hms] at hfut
  have hqm : ∀ q : FuneralCoverMembership, q.getMonthsSinceStart now
      = ((now - q.startDate).natAbs + 2592000000 - 1) / 2592000000 :=
    fun q => rfl
  have ha : 15552000000 < (now - m.startDate).natAbs := by omega
  have haa : (now - m.startDate).natAbs ≤ (now - m'.startDate).natAbs := by
    omega
  have hmonths : 7 ≤ m.getMonthsSinceStart now := by
    rw [hqm m]
    omega
  refine ⟨by omega, ?_, ?_⟩
  · rw [hqm m, hqm m']
    exact Nat.div_le_div_right (by omega)
  · have hrw : m.hasWaitingPeriodPassed "NATURAL_DEATH" now
        = decide (6 ≤ m.getMonthsSinceStart now) := rfl
    rw [hrw, decide_eq_true_eq]
    omega

/-- Closed instantiation of hasWaitingPeriodPassed_future_start: a cover
starting 181 days after the epoch, inspected at the epoch, is already
claim-eligible for natural death. -/
theorem hasWaitingPeriodPassed_future_start_witness :
    ((0 : ℤ) + 180 * msPerDay
        < ({ accMembership with startDate := 15638400000 }
            : FuneralCoverMembership).startDate) ∧
    ({ accMembership with startDate := 15638400000 }
        : FuneralCoverMembership).hasWaitingPeriodPassed "NATURAL_DEATH" 0
      = true :=
  ⟨by decide,
    (hasWaitingPeriodPassed_future_start
      { accMembership with startDate := 15638400000 }
      { accMembership with startDate := 17280000000 } 0
      (by decide) (by decide)).2.2⟩

/-! ## Loans (Loan.model.js) -/

/-- Result record of Loan.calculateLoanDetails. -/
structure LoanDetails where
  capital : ℚ
  interest : ℚ
  serviceFee : ℚ
  initiationFee : ℚ
  totalRepayment : ℚ
  monthlyRepayment : ℚ
  term : ℚ
deriving DecidableEq

/-- Static Loan.calculateLoanDetails: interest is 4.5 percent of the
principal, the service fee is the fixed 52.26, the initiation fee is 15
percent of the principal, totalRepayment sums the four, and
monthlyRepayment divides by the term. -/
def calculateLoanDetails (amount : ℚ) (term : ℚ) : LoanDetails :=
  let interest := amount * 0.045
  let serviceFee : ℚ := 52.26
  let initiationFee := amount * 0.15
  let totalRepayment := amount + interest + serviceFee + initiationFee
  let monthlyRepayment := totalRepayment / term
  { capital := amount, interest := interest, serviceFee := serviceFee,
    initiationFee := initiationFee, totalRepayment := totalRepayment,
    monthlyRepayment := monthlyRepayment, term := term }

/-- Loan entity; the status field carries the source string values
pending, approved, rejected and paid. Date-valued bookkeeping fields of
the source (applicationDate, approvalDate, disbursementDate) play no role
in any claim and are omitted. -/
structure Loan where
  id : Option String
  userId : String
  amount : ℚ
  term : ℚ
  purpose : String
  status : String
  interestRate : ℚ
  initiationFee : ℚ
  serviceFee : ℚ
  totalRepayment : ℚ
  monthlyRepayment : ℚ
  amountPaid : ℚ
  remainingBalance : ℚ
deriving DecidableEq

/-- Method Loan.calculateRemainingBalance. -/
def Loan.calculateRemainingBalance (l : Loan) : ℚ :=
  l.totalRepayment - l.amountPaid

/-- Method Loan.recordPayment: adds the amount to amountPaid, recomputes
remainingBalance, and when that balance is at most 0 marks the loan paid
and clamps the balance to 0. The source performs no validation of the
amount or of the loan status. -/
def Loan.recordPayment (l : Loan) (amount : ℚ) : Loan :=
  let l1 := { l with amountPaid := l.amountPaid + amount }
  let l2 := { l1 with remainingBalance := l1.calculateRemainingBalance }
  if l2.remainingBalance ≤ 0 then
    { l2 with status := "paid", remainingBalance := 0 }
  else
    l2

/-- Unconditional update equations of Loan.recordPayment, shared by the
payment claims. -/
theorem Loan.recordPayment_eq (l : Loan) (a : ℚ) :
    (l.recordPayment a).amountPaid = l.amountPaid + a ∧
    (l.recordPayment a).remainingBalance
      = max 0 (l.totalRepayment - (l.amountPaid + a)) ∧
    (l.recordPayment a).status
      = (if max 0 (l.totalRepayment - (l.amountPaid + a)) = 0 then "paid"
         else l.status) := by
  by_cases h : l.totalRepayment - (l.amountPaid + a) ≤ 0
  · refine ⟨?_, ?_, ?_⟩ <;>
      simp [Loan.recordPayment, Loan.calculateRemainingBalance, h,
        max_eq_left h]
  · have hx : 0 < l.totalRepayment - (l.amountPaid + a) := lt_of_not_le h
    refine ⟨?_, ?_, ?_⟩ <;>
      simp [Loan.recordPayment, Loan.calculateRemainingBalance, h,
        max_eq_right hx.le, hx.ne']

/-- C2: for every principal and every term in the offered set, the loan
quote carries interest of 4.5 percent of principal, the fixed service fee
52.26, an initiation fee of 15 percent of principal, a total repayment
summing principal and the three charges, and a monthly repayment of the
total divided by the term, with no rounding applied. -/
theorem calculateLoanDetails_spec (amount term : ℚ)
    (hterm : term = 1 ∨ term = 2 ∨ term = 3) :
    (calculateLoanDetails amount term).interest = amount * 0.045 ∧
    (calculateLoanDetails amount term).serviceFee = 52.26 ∧
    (calculateLoanDetails amount term).initiationFee = amount * 0.15 ∧
    (calculateLoanDetails amount term).totalRepayment
      = amount + amount * 0.045 + 52.26 + amount * 0.15 ∧
    (calculateLoanDetails amount term).monthlyRepayment
      = (calculateLoanDetails amount term).totalRepayment / term :=
  ⟨rfl, rfl, rfl, rfl, rfl⟩

/-- Closed instantiation of calculateLoanDetails_spec at principal 1000
and term 2, the worked example of the specification. -/
theorem calculateLoanDetails_spec_witness :
    ((2 : ℚ) = 1 ∨ (2 : ℚ) = 2 ∨ (2 : ℚ) = 3) ∧
    ((calculateLoanDetails 1000 2).interest = 1000 * 0.045 ∧
     (calculateLoanDetails 1000 2).serviceFee = 52.26 ∧
     (calculateLoanDetails 1000 2).initiationFee = 1000 * 0.15 ∧
     (calculateLoanDetails 1000 2).totalRepayment
       = 1000 + 1000 * 0.045 + 52.26 + 1000 * 0.15 ∧
     (calculateLoanDetails 1000 2).monthlyRepayment
       = (calculateLoanDetails 1000 2).totalRepayment / 2) :=
  ⟨Or.inr (Or.inl rfl),
    calculateLoanDetails_spec 1000 2 (Or.inr (Or.inl rfl))⟩

/-- C3: a payment of positive amount increases amountPaid by exactly the
amount, sets remainingBalance to the clamp max 0 (totalRepayment minus the
new amountPaid), and sets status to paid exactly when that clamped balance
is 0 (otherwise the status is left as it was); any excess beyond the total
repayment is absorbed by the clamp with no overpayment credit. -/
theorem recordPayment_applies_payment (l : Loan) (a : ℚ) (ha : 0 < a) :
    (l.recordPayment a).amountPaid = l.amountPaid + a ∧
    (l.recordPayment a).remainingBalance
      = max 0 (l.totalRepayment - (l.amountPaid + a)) ∧
    (l.recordPayment a).status
      = (if (l.recordPayment a).remainingBalance = 0 then "paid"
         else l.status) := by
  obtain ⟨h1, h2, h3⟩ := Loan.recordPayment_eq l a
  exact ⟨h1, h2, by rw [h3, h2]⟩

/-- Approved sample loan for 1000 over 2 months, matching the worked
quote of the specification. -/
def sampleLoan : Loan :=
  { id := none, userId := "u1", amount := 1000, term := 2,
    purpose := "stock", status := "approved", interestRate := 5,
    initiationFee := 150, serviceFee := 52.26, totalRepayment := 1247.26,
    monthlyRepayment := 623.63, amountPaid := 0,
    remainingBalance := 1247.26 }

/-- Closed instantiation of recordPayment_applies_payment: a 200 payment
on the approved sample loan. -/
theorem recordPayment_applies_payment_witness :
    (0 : ℚ) < 200 ∧
    ((sampleLoan.recordPayment 200).amountPaid
        = sampleLoan.amountPaid + 200 ∧
     (sampleLoan.recordPayment 200).remainingBalance
        = max 0 (sampleLoan.totalRepayment - (sampleLoan.amountPaid + 200)) ∧
     (sampleLoan.recordPayment 200).status
        = (if (sampleLoan.recordPayment 200).remainingBalance = 0
           then "paid" else sampleLoan.status)) :=
  ⟨by norm_num, recordPayment_applies_payment sampleLoan 200 (by norm_num)⟩

/-- C4 counterexample: recordPayment performs no validation, so on a loan
whose status is pending, a payment of the nonpositive amount -5 is not
rejected and does not leave the account unchanged: it is applied, driving
amountPaid to -5. -/
theorem recordPayment_no_validation_counterexample :
    ({ sampleLoan with status := "pending" } : Loan).status ≠ "approved" ∧
    (-5 : ℚ) ≤ 0 ∧
    ({ sampleLoan with status := "pending" } : Loan).recordPayment (-5)
      ≠ { sampleLoan with status := "pending" } ∧
    (({ sampleLoan with status := "pending" } : Loan).recordPayment
        (-5)).amountPaid = -5 := by
  refine ⟨by decide, by norm_num, ?_, ?_⟩
  · intro h
    have hpaid := congrArg Loan.amountPaid h
    rw [(Loan.recordPayment_eq _ _).1] at hpaid
    norm_num [sampleLoan] at hpaid
  · rw [(Loan.recordPayment_eq _ _).1]
    norm_num [sampleLoan]

/-- C4 (amended): recordPayment applies every payment unconditionally;
for every loan in any status and every amount, including amounts that are
zero or negative, amountPaid is increased by the amount, remainingBalance
becomes the clamp max 0 (totalRepayment minus the new amountPaid), and the
status is set to paid exactly when that clamp is 0, with no rejection and
no untouched-account path. -/
theorem recordPayment_unconditional (l : Loan) (a : ℚ) :
    (l.recordPayment a).amountPaid = l.amountPaid + a ∧
    (l.recordPayment a).remainingBalance
      = max 0 (l.totalRepayment - (l.amountPaid + a)) ∧
    (l.recordPayment a).status
      = (if max 0 (l.totalRepayment - (l.amountPaid + a)) = 0 then "paid"
         else l.status) :=
  Loan.recordPayment_eq l a

/-! ## Users and store discount (User.model.js) -/

/-- User entity; fields not touched by any claim (timestamps, photo, the
stokvel membership list, loan history) are omitted. -/
structure User where
  uid : Option String
  email : String
  displayName : String
  savingsTotal : ℚ
  storeDiscount : ℚ
  funeralCover : Bool
  funeralCoverType : Option String
  creditScore : ℚ
  role : String
deriving DecidableEq

/-- Method User.calculateDiscount: branches on funeralCover, then returns
25 or 10 (without cover) respectively 30 or 20 (with cover) at the 10000
and 5000 savings thresholds, falling through to 0. -/
def User.calculateDiscount (u : User) : ℚ :=
  if !u.funeralCover then
    if u.savingsTotal ≥ 10000 then 25
    else if u.savingsTotal ≥ 5000 then 10
    else 0
  else
    if u.savingsTotal ≥ 10000 then 30
    else if u.savingsTotal ≥ 5000 then 20
    else 0

/-- Discount table as the specification states it, with its three
mutually exclusive savings bands. Written from the words of the spec for
comparison with User.calculateDiscount. -/
def specDiscountPercent (savings : ℚ) (hasFuneralCover : Bool) : ℚ :=
  if hasFuneralCover then
    if 10000 ≤ savings then 30
    else if 5000 ≤ savings ∧ savings < 10000 then 20
    else 0
  else
    if 10000 ≤ savings then 25
    else if 5000 ≤ savings ∧ savings < 10000 then 10
    else 0

/-- C5: for every cumulative-savings value and cover flag, the source
discount computation agrees with the total three-band lookup table of the
specification: without funeral cover 25 / 10 / 0 and with funeral cover
30 / 20 / 0 at the 10000 and 5000 thresholds. -/
theorem calculateDiscount_matches_spec_table (u : User) :
    u.calculateDiscount = specDiscountPercent u.savingsTotal u.funeralCover := by
  unfold User.calculateDiscount specDiscountPercent
  cases hcover : u.funeralCover
  all_goals
    by_cases h1 : 10000 ≤ u.savingsTotal
    · simp [h1]
    · have hlt : u.savingsTotal < 10000 := lt_of_not_le h1
      by_cases h2 : 5000 ≤ u.savingsTotal
      · simp [h1, h2, hlt]
      · simp [h1, h2]

/-! ## Store orders (Product.model.js) -/

/-- Cart item as stored in the cart: unit price and quantity. -/
structure CartItem where
  id : Option String
  name : String
  price : ℚ
  image : String
  quantity : ℚ
deriving DecidableEq

/-- Method CartItem.getTotal: unit price times quantity. -/
def CartItem.getTotal (i : CartItem) : ℚ := i.price * i.quantity

/-- Result record of Order.calculateTotals. -/
structure OrderTotals where
  subtotal : ℚ
  discount : ℚ
  total : ℚ
deriving DecidableEq

/-- Static Order.calculateTotals: subtotal reduces the item totals from
0, discount is subtotal times discountPercent over 100, total is subtotal
minus discount. -/
def calculateTotals (items : List CartItem) (discountPercent : ℚ) :
    OrderTotals :=
  let subtotal := items.foldl (fun sum item => sum + item.getTotal) 0
  let discount := subtotal * (discountPercent / 100)
  let total := subtotal - discount
  { subtotal := subtotal, discount := discount, total := total }

/-- Left fold of the running order subtotal, expressed as a sum. -/
theorem foldl_getTotal_eq_sum (items : List CartItem) (a : ℚ) :
    items.foldl (fun sum item => sum + item.getTotal) a
      = a + (items.map CartItem.getTotal).sum := by
  induction items generalizing a with
  | nil => simp
  | cons i rest ih =>
    simp only [List.foldl_cons, List.map_cons, List.sum_cons]
    rw [ih]
    ring

/-- C6: the order totals are subtotal equal to the sum of unit price
times quantity over the items, discount equal to subtotal times
discountPercent over 100, and total equal to subtotal minus discount; and
whenever every item has quantity at least 1 and nonnegative unit price
and the discount percentage lies in the interval from 0 to 100, the total
is nonnegative. -/
theorem calculateTotals_spec (items : List CartItem) (p : ℚ) :
    (calculateTotals items p).subtotal
      = (items.map (fun i => i.price * i.quantity)).sum ∧
    (calculateTotals items p).discount
      = (calculateTotals items p).subtotal * (p / 100) ∧
    (calculateTotals items p).total
      = (calculateTotals items p).subtotal - (calculateTotals items p).discount ∧
    ((∀ i ∈ items, 1 ≤ i.quantity ∧ 0 ≤ i.price) → 0 ≤ p → p ≤ 100 →
      0 ≤ (calculateTotals items p).total) := by
  have hsub : (calculateTotals items p).subtotal
      = (items.map (fun i => i.price * i.quantity)).sum := by
    show items.foldl (fun sum item => sum + item.getTotal) 0
        = (items.map (fun i => i.price * i.quantity)).sum
    rw [foldl_getTotal_eq_sum, zero_add]
    rfl
  refine ⟨hsub, rfl, rfl, ?_⟩
  intro hvalid hp0 hp100
  have hs : 0 ≤ (calculateTotals items p).subtotal := by
    rw [hsub]
    apply List.sum_nonneg
    intro x hx
    obtain ⟨i, hi, hix⟩ := List.mem_map.1 hx
    obtain ⟨hq, hpr⟩ := hvalid i hi
    rw [← hix]
    exact mul_nonneg hpr (le_trans zero_le_one hq)
  show 0 ≤ (calculateTotals items p).subtotal
      - (calculateTotals items p).subtotal * (p / 100)
  have hfactor : 0 ≤ 1 - p / 100 := by linarith
  nlinarith [mul_nonneg hs hfactor]

/-- Cart used by the worked example of the specification: 100 times 2
plus 50 times 1. -/
def demoItems : List CartItem :=
  [{ id := none, name := "a", price := 100, image := "", quantity := 2 },
   { id := none, name := "b", price := 50, image := "", quantity := 1 }]

/-- Closed instantiation of calculateTotals_spec on the worked example
cart at a 10 percent discount. -/
theorem calculateTotals_spec_witness :
    (∀ i ∈ demoItems, 1 ≤ i.quantity ∧ 0 ≤ i.price) ∧
    (0 : ℚ) ≤ 10 ∧ (10 : ℚ) ≤ 100 ∧
    0 ≤ (calculateTotals demoItems 10).total :=
  ⟨by decide, by norm_num, by norm_num,
    (calculateTotals_spec demoItems 10).2.2.2 (by decide) (by norm_num)
      (by norm_num)⟩

/-! ## Stokvel lifecycle (StokvelService.js, Stokvel.model.js) -/

/-- Calendar date in the representation of the JS Date components used by
the source: a year, a zero-based month index (0 is January) and a day of
month. -/
structure SDate where
  year : ℤ
  month : ℤ
  day : ℤ
deriving DecidableEq

/-- Semantics of d.setMonth(d.getMonth() + n): a month index of 12 or
more rolls into the year, keeping the day of month. -/
def SDate.addMonths (d : SDate) (n : ℤ) : SDate :=
  let m := d.month + n
  { year := d.year + m / 12, month := m % 12, day := d.day }

/-- Stokvel type configuration record from the static table
StokvelService.STOKVEL_TYPES. -/
structure StokvelTypeConfig where
  name : String
  type : String
  durationMonths : ℕ
  description : String
  payoutMonth : Option ℕ
  allowsEarlyWithdrawal : Bool
deriving DecidableEq

/-- Entry STOKVEL_TYPES.JANUARY. -/
def JANUARY : StokvelTypeConfig :=
  { name := "January Stokvel", type := "January", durationMonths := 10,
    description := "Save for 10 months, receive payout in January",
    payoutMonth := some 1, allowsEarlyWithdrawal := false }

/-- Entry STOKVEL_TYPES.GROCERY. -/
def GROCERY : StokvelTypeConfig :=
  { name := "Grocery Stokvel", type := "Grocery", durationMonths := 10,
    description := "Save for groceries during October/November specials",
    payoutMonth := some 10, allowsEarlyWithdrawal := false }

/-- Entry STOKVEL_TYPES.PLANNING. -/
def PLANNING : StokvelTypeConfig :=
  { name := "Planning Ahead Stokvel", type := "Planning",
    durationMonths := 10,
    description := "Flexible stokvel for emergencies and savings",
    payoutMonth := none, allowsEarlyWithdrawal := true }

/-- Method StokvelService.calculateStokvelDates: branches on the type
string of the configuration; the reference year is the year of today. -/
def calculateStokvelDates (today : SDate) (typeConfig : StokvelTypeConfig) :
    SDate × SDate :=
  if typeConfig.type = "January" then
    (⟨today.year, 1, 1⟩, ⟨today.year, 11, 1⟩)
  else if typeConfig.type = "Grocery" then
    (⟨today.year, 0, 1⟩, ⟨today.year, 9, 1⟩)
  else
    (today, today.addMonths 10)

/-- C7: for every reference date, the January configuration yields
February 1 (month index 1) through December 1 (month index 11) of the
reference year, an eleven-month window kept as in the source; the Grocery
configuration yields January 1 through October 1 of the reference year;
and the Planning configuration starts today and ends ten calendar months
later. -/
theorem calculateStokvelDates_spec (today : SDate) :
    calculateStokvelDates today JANUARY
      = (⟨today.year, 1, 1⟩, ⟨today.year, 11, 1⟩) ∧
    calculateStokvelDates today GROCERY
      = (⟨today.year, 0, 1⟩, ⟨today.year, 9, 1⟩) ∧
    calculateStokvelDates today PLANNING = (today, today.addMonths 10) :=
  ⟨rfl, rfl, rfl⟩

/-- Method StokvelService.calculateNextContributionDate: one calendar
month from today, kept at date granularity (the source truncates the ISO
string at the time separator). -/
def calculateNextContributionDate (today : SDate) : SDate :=
  today.addMonths 1

/-- Membership of a user in a stokvel (StokvelMembership in the model);
nextContributionDate holds a pure calendar date, mirroring the
YYYY-MM-DD string of the source, and joinedAt a millisecond timestamp. -/
structure StokvelMembership where
  id : Option String
  name : String
  type : String
  balance : ℚ
  monthlyContribution : ℚ
  nextContributionDate : Option SDate
  contributionsCount : ℕ
  status : String
  projectedPayout : ℚ
  joinedAt : ℤ
deriving DecidableEq

/-- Method StokvelMembership.recordContribution: adds the amount to the
balance, increments the contribution count, and recomputes the next
contribution date as one calendar month from today (not from the previous
due date). -/
def StokvelMembership.recordContribution (m : StokvelMembership)
    (today : SDate) (amount : ℚ) : StokvelMembership :=
  { m with
    balance := m.balance + amount,
    contributionsCount := m.contributionsCount + 1,
    nextContributionDate := some (calculateNextContributionDate today) }

/-- C8: a positive contribution increases the balance by exactly the
amount, increments the contribution count by exactly one, and sets the
next contribution date to today plus one calendar month at date
granularity, computed from today irrespective of the previous due date
(the right side does not mention the previous nextContributionDate),
leaving every other membership field unchanged. -/
theorem recordContribution_spec (m : StokvelMembership) (today : SDate)
    (amount : ℚ) (ha : 0 < amount) :
    (m.recordContribution today amount).balance = m.balance + amount ∧
    (m.recordContribution today amount).contributionsCount
      = m.contributionsCount + 1 ∧
    (m.recordContribution today amount).nextContributionDate
      = some (today.addMonths 1) ∧
    (m.recordContribution today amount).id = m.id ∧
    (m.recordContribution today amount).name = m.name ∧
    (m.recordContribution today amount).type = m.type ∧
    (m.recordContribution today amount).monthlyContribution
      = m.monthlyContribution ∧
    (m.recordContribution today amount).status = m.status ∧
    (m.recordContribution today amount).projectedPayout
      = m.projectedPayout ∧
    (m.recordContribution today amount).joinedAt = m.joinedAt :=
  ⟨rfl, rfl, rfl, rfl, rfl, rfl, rfl, rfl, rfl, rfl⟩

/-- Membership used in closed instantiations. -/
def demoMembership : StokvelMembership :=
  { id := some "s1", name := "January Stokvel", type := "January",
    balance := 400, monthlyContribution := 200,
    nextContributionDate := some ⟨2025, 9, 1⟩, contributionsCount := 2,
    status := "active", projectedPayout := 2000, joinedAt := 0 }

/-- Closed instantiation of recordContribution_spec: a 200 contribution
on October 11 2025 moves the next due date to November 11 2025. -/
theorem recordContribution_spec_witness :
    (0 : ℚ) < 200 ∧
    (demoMembership.recordContribution ⟨2025, 9, 11⟩ 200).balance
      = demoMembership.balance + 200 ∧
    (demoMembership.recordContribution ⟨2025, 9, 11⟩ 200).nextContributionDate
      = some (SDate.addMonths ⟨2025, 9, 11⟩ 1) :=
  ⟨by norm_num,
    (recordContribution_spec demoMembership ⟨2025, 9, 11⟩ 200
      (by norm_num)).1,
    (recordContribution_spec demoMembership ⟨2025, 9, 11⟩ 200
      (by norm_num)).2.2.1⟩

/-! ## Funeral plans and premiums (Funeral.model.js, continued) -/

/-- Coverage table of a funeral plan, keyed by member category. -/
structure Coverage where
  mainMember : ℚ
  spouse : ℚ
  children : ℚ
  extended : ℚ
deriving DecidableEq

/-- Funeral cover plan record from the static table
FuneralCoverPlan.PLANS. -/
structure FuneralPlan where
  id : String
  name : String
  price : ℚ
  coverage : Coverage
  maxChildren : ℕ
  maxExtended : ℕ
deriving DecidableEq

/-- Entry PLANS.BASIC. -/
def BASIC : FuneralPlan :=
  { id := "basic", name := "Basic Plan", price := 99,
    coverage := ⟨25000, 0, 0, 0⟩, maxChildren := 0, maxExtended := 0 }

/-- Entry PLANS.FAMILY. -/
def FAMILY : FuneralPlan :=
  { id := "family", name := "Family Plan", price := 199,
    coverage := ⟨50000, 50000, 15000, 0⟩, maxChildren := 5,
    maxExtended := 0 }

/-- Entry PLANS.EXTENDED. -/
def EXTENDED : FuneralPlan :=
  { id := "extended", name := "Extended Family Plan", price := 299,
    coverage := ⟨75000, 75000, 20000, 30000⟩, maxChildren := 5,
    maxExtended := 4 }

/-- Values of the static table FuneralCoverPlan.PLANS in source order. -/
def PLANS : List FuneralPlan := [BASIC, FAMILY, EXTENDED]

/-- Static FuneralCoverPlan.getPlan: first plan whose id matches. -/
def getPlan (planId : String) : Option FuneralPlan :=
  PLANS.find? (fun p => p.id == planId)

/-- Additional benefit record from the static table
FuneralCoverPlan.ADDITIONAL_BENEFITS. -/
structure Benefit where
  name : String
  price : ℚ
deriving DecidableEq

/-- Lookup in the static table FuneralCoverPlan.ADDITIONAL_BENEFITS; an
unknown key is undefined. -/
def ADDITIONAL_BENEFITS : String → Option Benefit
  | "CHAIRS"     => some ⟨"100 Chairs", 25⟩
  | "TOILET"     => some ⟨"Mobile Toilet", 30⟩
  | "FRIDGE"     => some ⟨"Mobile Fridge", 35⟩
  | "DECORATION" => some ⟨"Decoration", 65⟩
  | "CATERING"   => some ⟨"Catering", 75⟩
  | _            => none

/-- Static FuneralCoverPlan.calculatePremium: an unknown plan returns 0
at once; otherwise the total starts at the plan price and each recognized
benefit key adds its price, unrecognized keys being skipped. -/
def calculatePremium (planId : String) (additionalBenefits : List String) :
    ℚ :=
  match getPlan planId with
  | none => 0
  | some plan =>
    additionalBenefits.foldl
      (fun total benefitKey =>
        match ADDITIONAL_BENEFITS benefitKey with
        | some benefit => total + benefit.price
        | none => total)
      plan.price

/-- Left fold of the benefit accumulation, expressed as a sum of the
prices of the recognized keys (an unrecognized key contributes 0). -/
theorem foldl_benefits_eq_sum (ks : List String) (a : ℚ) :
    ks.foldl
      (fun total benefitKey =>
        match ADDITIONAL_BENEFITS benefitKey with
        | some benefit => total + benefit.price
        | none => total)
      a
      = a + (ks.map
          (fun k => ((ADDITIONAL_BENEFITS k).map Benefit.price).getD 0)).sum := by
  induction ks generalizing a with
  | nil => simp
  | cons k rest ih =>
    simp only [List.foldl_cons, List.map_cons, List.sum_cons]
    rw [ih]
    cases h : ADDITIONAL_BENEFITS k <;> simp [h] <;> ring

/-- C9: when the plan id is recognized, the premium is the base monthly
price of the plan plus the sum of the prices of the recognized add-on
keys, unrecognized keys contributing nothing; when the plan id is
unknown, the premium is 0 and no failure is raised. -/
theorem calculatePremium_spec (planId : String) (ks : List String) :
    (∀ plan, getPlan planId = some plan →
      calculatePremium planId ks
        = plan.price + (ks.map
            (fun k => ((ADDITIONAL_BENEFITS k).map Benefit.price).getD 0)).sum) ∧
    (getPlan planId = none → calculatePremium planId ks = 0) := by
  constructor
  · intro plan hplan
    unfold calculatePremium
    rw [hplan]
    exact foldl_benefits_eq_sum ks plan.price
  · intro hnone
    unfold calculatePremium
    rw [hnone]

/-- Closed instantiation of calculatePremium_spec: the family plan with
the chairs and catering add-ons and one unknown key comes to 199 plus 25
plus 75. -/
theorem calculatePremium_spec_witness :
    getPlan "family" = some FAMILY ∧
    calculatePremium "family" ["CHAIRS", "GAZEBO", "CATERING"]
      = FAMILY.price
        + ((["CHAIRS", "GAZEBO", "CATERING"] : List String).map
            (fun k => ((ADDITIONAL_BENEFITS k).map Benefit.price).getD 0)).sum :=
  ⟨rfl,
    (calculatePremium_spec "family" ["CHAIRS", "GAZEBO", "CATERING"]).1
      FAMILY rfl⟩

end Vema
